import Mathlib

/-
  Verification development for the brother-cert repository (Go).

  The repository automates certificate lifecycle operations (upload,
  activate, delete) against a printer's embedded web console.  The core
  logic embedded here, translated from the Go source:

  - the three Field Discoverers, which locate form-field names in raw
    HTML page bytes using Go regular expressions
    (parseHttpSettingsFormFields, parseDeleteFormFields,
    parseImportFormFields);
  - the three Workflow Orchestrators (SetActiveCert, DeleteCert,
    UploadNewCert), modelled as functions of an explicit environment that
    supplies the results of the external collaborators (the HTTP
    transport, the black-box getCertIDs lister, and the black-box
    parseBodyForCSRFToken extractor), returning the Go result together
    with the trace of network operations performed.

  Go's regexp package implements leftmost-first matching ("the match that
  begins as early as possible, and among those the one a backtracking
  search starting at the beginning of the regular expression would have
  found first").  The matcher below implements exactly those semantics
  for the regex constructs the source uses: literals, negated character
  classes with + and * (greedy), capture groups, non-capturing
  alternation and concatenation.
-/

abbrev Str := List Char

/-- Abstract syntax of the regular-expression fragment used by the source:
literals, greedy negated character classes ([^c]+ when the flag is true,
[^c]* when false), numbered capture groups, alternation, concatenation. -/
inductive RE where
  | lit : Str → RE
  | cls : Str → Bool → RE
  | grp : Nat → RE → RE
  | alt : RE → RE → RE
  | seq : RE → RE → RE

/-- Captures: association list from group number to captured text.
A group that did not participate in the match is absent (Go returns a
nil/empty submatch for it). -/
abbrev Caps := List (Nat × Str)

def getCap (caps : Caps) (n : Nat) : Str :=
  match caps.lookup n with
  | some s => s
  | none => []

/-- Length of the maximal prefix of s made of characters not in neg
(the maximal text a greedy [^neg]* can consume). -/
def maxRun (neg : Str) : Str → Nat
  | [] => 0
  | c :: rest => if c ∈ neg then 0 else maxRun neg rest + 1

/-- Greedy backtracking for a character class: try consuming i characters
for i from hi down to lo, first success wins. -/
def tryDrops {α : Type} (s : Str) (caps : Caps) (k : Str → Caps → Option α)
    (lo : Nat) : Nat → Option α
  | 0 => if lo = 0 then k s caps else none
  | i + 1 =>
    if i + 1 < lo then none
    else (k (s.drop (i + 1)) caps).orElse (fun _ => tryDrops s caps k lo i)

/-- Backtracking matcher in continuation-passing style.  Preference
order: alternation tries the left alternative first; classes are greedy
(longest first).  This is Go's leftmost-first backtracking preference. -/
def matchRE {α : Type} : RE → Str → Caps → (Str → Caps → Option α) → Option α
  | .lit l, s, caps, k => if l.isPrefixOf s then k (s.drop l.length) caps else none
  | .cls neg one, s, caps, k =>
    let m := maxRun neg s
    match one with
    | true => if m = 0 then none else tryDrops s caps k 1 m
    | false => tryDrops s caps k 0 m
  | .grp n r, s, caps, k =>
    matchRE r s caps (fun s2 caps2 => k s2 ((n, s.take (s.length - s2.length)) :: caps2))
  | .alt r1 r2, s, caps, k =>
    (matchRE r1 s caps k).orElse (fun _ => matchRE r2 s caps k)
  | .seq r1 r2, s, caps, k =>
    matchRE r1 s caps (fun s2 caps2 => matchRE r2 s2 caps2 k)

/-- Try to match r at the very start of s; on success return the captures
and the remainder of s after the matched text. -/
def findAt (r : RE) (s : Str) : Option (Caps × Str) :=
  matchRE r s [] (fun rest caps => some (caps, rest))

/-- Leftmost search (Go FindSubmatch): try each start position from the
left, first position that matches wins. -/
def findSub (r : RE) : Str → Option (Caps × Str)
  | [] => findAt r []
  | c :: rest => (findAt r (c :: rest)).orElse (fun _ => findSub r rest)

/-- Successive non-overlapping leftmost matches (Go FindAllSubmatch with
n = -1): after a match, searching resumes at the end of the matched text.
The fuel argument bounds the recursion; every pattern in this file starts
with a non-empty literal so every match consumes at least one character
and the initial fuel length + 1 is never exhausted. -/
def findAllAux (r : RE) : Nat → Str → List Caps
  | 0, _ => []
  | fuel + 1, s =>
    match findSub r s with
    | none => []
    | some (caps, rest) =>
      if rest.length < s.length then caps :: findAllAux r fuel rest else [caps]

def findAll (r : RE) (s : Str) : List Caps :=
  findAllAux r (s.length + 1) s

/-- Sequence a list of regex fragments. -/
def seqs : List RE → RE
  | [] => .lit []
  | [r] => r
  | r :: rs => .seq r (seqs rs)

def L (s : String) : RE := .lit s.toList

/-- The shared attribute fragment
(?:id="([^"]+)"[^>]+name="([^"]+)"|name="([^"]+)"[^>]+id="([^"]+)") used
by the hidden-input, select and checkbox patterns of the source. -/
def idNameAlt : RE :=
  .alt
    (seqs [L "id=\"", .grp 1 (.cls ['"'] true), L "\"", .cls ['>'] true,
           L "name=\"", .grp 2 (.cls ['"'] true), L "\""])
    (seqs [L "name=\"", .grp 3 (.cls ['"'] true), L "\"", .cls ['>'] true,
           L "id=\"", .grp 4 (.cls ['"'] true), L "\""])

/-- Go pattern (cert_delete.go / import page):
<input[^>]+type="hidden"[^>]+(?:id="([^"]+)"[^>]+name="([^"]+)"|name="([^"]+)"[^>]+id="([^"]+)")[^>]*value=""[^>]*> -/
def hiddenRegex : RE :=
  seqs [L "<input", .cls ['>'] true, L "type=\"hidden\"", .cls ['>'] true,
        idNameAlt, .cls ['>'] false, L "value=\"\"", .cls ['>'] false, L ">"]

/-- Go pattern (http_settings.go):
<select[^>]+(?:id="([^"]+)"[^>]+name="([^"]+)"|name="([^"]+)"[^>]+id="([^"]+)")[^>]*> -/
def selectRegex : RE :=
  seqs [L "<select", .cls ['>'] true, idNameAlt, .cls ['>'] false, L ">"]

/-- Go pattern (http_settings.go):
<input[^>]+type="checkbox"[^>]+(?:id="([^"]+)"[^>]+name="([^"]+)"|name="([^"]+)"[^>]+id="([^"]+)")[^>]+value="1"[^>]*>[^<]*HTTPS -/
def httpsCheckboxRegex : RE :=
  seqs [L "<input", .cls ['>'] true, L "type=\"checkbox\"", .cls ['>'] true,
        idNameAlt, .cls ['>'] true, L "value=\"1\"", .cls ['>'] false, L ">",
        .cls ['<'] false, L "HTTPS"]

/-- Go pattern (import page):
<input[^>]+type="file"[^>]+(?:id="([^"]+)"|name="([^"]+)")[^>]*> -/
def fileRegex : RE :=
  seqs [L "<input", .cls ['>'] true, L "type=\"file\"", .cls ['>'] true,
        .alt (seqs [L "id=\"", .grp 1 (.cls ['"'] true), L "\""])
             (seqs [L "name=\"", .grp 2 (.cls ['"'] true), L "\""]),
        .cls ['>'] false, L ">"]

/-- Go pattern (import page):
<input[^>]+type="password"[^>]+(?:id="([^"]+)"|name="([^"]+)")[^>]*> -/
def passwordRegex : RE :=
  seqs [L "<input", .cls ['>'] true, L "type=\"password\"", .cls ['>'] true,
        .alt (seqs [L "id=\"", .grp 1 (.cls ['"'] true), L "\""])
             (seqs [L "name=\"", .grp 2 (.cls ['"'] true), L "\""]),
        .cls ['>'] false, L ">"]

/-- Field-name extraction shared by the four-group patterns: Go checks
len(match[1]) > 0 first, then len(match[3]) > 0, else leaves the name
empty. -/
def idNameOf (caps : Caps) : String :=
  if (getCap caps 1).length > 0 then String.mk (getCap caps 1)
  else if (getCap caps 3).length > 0 then String.mk (getCap caps 3)
  else ""

/-- Field-name extraction for the two-group file/password patterns: Go
checks match[1] then match[2]. -/
def twoGroupNameOf (caps : Caps) : String :=
  if (getCap caps 1).length > 0 then String.mk (getCap caps 1)
  else if (getCap caps 2).length > 0 then String.mk (getCap caps 2)
  else ""

/-- Form-field record for the HTTP settings page (http_settings.go). -/
structure httpSettingsFormFields where
  certSelectField : String
  httpsWebField : String
  httpsIppField : String
deriving Repr, DecidableEq

/-- Form-field record for the delete page (cert_delete.go). -/
structure deleteFormFields where
  hiddenField1 : String
  hiddenField2 : String
deriving Repr, DecidableEq

/-- Form-field record for the import page. -/
structure importFormFields where
  hiddenField1 : String
  hiddenField2 : String
  fileField : String
  passwordField : String
deriving Repr, DecidableEq

def errNoCertSelectField : String :=
  "printer: http settings: failed to find certificate select field name"

def errNoFileField : String :=
  "printer: upload: failed to find file input field name"

def errNoPasswordField : String :=
  "printer: upload: failed to find password input field name"

def errCertDeleteInvalidID : String := "printer: cant delete cert (invalid id)"

def errCertDeleteStillExists : String := "printer: failed to delete cert (still exists)"

/-- Message text of the ambiguity error of UploadNewCert; the apostrophe
of the Go literal is spelled via its code point. -/
def errUploadAmbiguous : String :=
  "printer: upload: failed to deduce new cert" ++ String.singleton (Char.ofNat 39) ++ "s id"

/-- Certificate-selector name discovered on the settings page: Go runs
selectRegex.FindSubmatch and takes group 1 or group 3. -/
def certSelectOf (bodyBytes : Str) : String :=
  match findSub selectRegex bodyBytes with
  | some (caps, _) => idNameOf caps
  | none => ""

/-- Names of the HTTPS checkboxes in document order: Go runs
httpsCheckboxRegex.FindAllSubmatch and extracts group 1 or group 3 of
each match. -/
def httpsNamesOf (bodyBytes : Str) : List String :=
  (findAll httpsCheckboxRegex bodyBytes).map idNameOf

/-- parseHttpSettingsFormFields (http_settings.go lines 27-71): the first
HTTPS-checkbox match is assigned the web role and the second the IPP
role; the certificate-selector field is required, the checkboxes are
not. -/
def parseHttpSettingsFormFields (bodyBytes : Str) : Except String httpSettingsFormFields :=
  if certSelectOf bodyBytes = "" then .error errNoCertSelectField
  else .ok ⟨certSelectOf bodyBytes, (httpsNamesOf bodyBytes).headD "",
            ((httpsNamesOf bodyBytes).drop 1).headD ""⟩

def deleteSkipName (n : String) : Bool :=
  n == "CSRFToken" || n == "CSRFToken1" || n == "pageid" ||
  n == "hidden_certificate_process_control" || n == "hidden_certificate_idx"

/-- Unknown hidden companion fields of the delete page: all hiddenRegex
matches whose name is non-empty and not on the skip list, in document
order (cert_delete.go lines 30-48). -/
def deleteHiddenFields (bodyBytes : Str) : List String :=
  ((findAll hiddenRegex bodyBytes).map idNameOf).filter
    (fun n => n ≠ "" && !(deleteSkipName n))

/-- parseDeleteFormFields (cert_delete.go lines 25-56): assigns the first
two unknown hidden fields when at least two are found, otherwise leaves
both names empty; never returns an error. -/
def parseDeleteFormFields (bodyBytes : Str) : Except String deleteFormFields :=
  match deleteHiddenFields bodyBytes with
  | a :: b :: _ => .ok ⟨a, b⟩
  | _ => .ok ⟨"", ""⟩

def importSkipName (n : String) : Bool :=
  n == "CSRFToken" || n == "CSRFToken1" || n == "pageid" ||
  n == "hidden_certificate_process_control" || n == "hidden_cert_import_password"

/-- Unknown hidden companion fields of the import page (import file lines
31-49); the skip list differs from the delete page in its last entry. -/
def importHiddenFields (bodyBytes : Str) : List String :=
  ((findAll hiddenRegex bodyBytes).map idNameOf).filter
    (fun n => n ≠ "" && !(importSkipName n))

/-- Hidden-companion assignment of the import page: first two unknown
hidden fields when at least two are found, otherwise both empty. -/
def importHiddenPair (bodyBytes : Str) : String × String :=
  match importHiddenFields bodyBytes with
  | a :: b :: _ => (a, b)
  | _ => ("", "")

def fileFieldOf (bodyBytes : Str) : String :=
  match findSub fileRegex bodyBytes with
  | some (caps, _) => twoGroupNameOf caps
  | none => ""

def passwordFieldOf (bodyBytes : Str) : String :=
  match findSub passwordRegex bodyBytes with
  | some (caps, _) => twoGroupNameOf caps
  | none => ""

/-- parseImportFormFields (import file lines 26-89): hidden companions
are optional, the file field and the password field are required. -/
def parseImportFormFields (bodyBytes : Str) : Except String importFormFields :=
  if fileFieldOf bodyBytes = "" then .error errNoFileField
  else if passwordFieldOf bodyBytes = "" then .error errNoPasswordField
  else .ok ⟨(importHiddenPair bodyBytes).1, (importHiddenPair bodyBytes).2,
            fileFieldOf bodyBytes, passwordFieldOf bodyBytes⟩

/-- Network operations an orchestrator performs, in order.  getCertIDs is
the black-box ID lister (itself a device round trip); sleepSeconds
records the fixed settle delay. -/
inductive NetEvent where
  | getCertIDs
  | httpGet (path : String) (query : List (String × String))
  | httpPost (path : String) (data : List (String × String))
  | httpPostMultipart (path : String) (fields : List (String × String))
      (fileField : String) (fileName : String)
  | sleepSeconds (n : Nat)
deriving Repr, DecidableEq

def urlHttpCertServerSettings : String := "net/net/certificate/http.html"

def urlCertDelete : String := "/net/security/certificate/delete.html"

def urlCertImport : String := "/net/security/certificate/import.html"

/-- Environment of a DeleteCert run: results the external collaborators
return at each call site, in call order.  A transport value is either an
error (network failure or body-read failure) or a status code with the
page bytes. -/
structure DeleteEnv where
  certIDs1 : Except String (List String)
  page1 : Except String (Nat × Str)
  csrf1 : Except String String
  post1 : Except String (Nat × Str)
  csrf2 : Except String String
  post2 : Except String Unit
  certIDs2 : Except String (List String)

/-- Form data of a delete POST (cert_delete.go lines 132-143 and
191-202): the two discovered companion fields are included only when
non-empty; processControl is "1" for the propose step and "2" for the
confirmation. -/
def deleteFormData (csrfToken : String) (f : deleteFormFields)
    (processControl : String) (id : String) : List (String × String) :=
  [("pageid", "383"), ("CSRFToken", csrfToken)]
  ++ (if f.hiddenField1 ≠ "" then [(f.hiddenField1, "")] else [])
  ++ (if f.hiddenField2 ≠ "" then [(f.hiddenField2, "")] else [])
  ++ [("hidden_certificate_process_control", processControl),
      ("hidden_certificate_idx", id)]

/-- DeleteCert (cert_delete.go lines 60-251).  Returns the Go result and
the trace of network operations performed.  Mirrors the source exactly:
sentinel/empty validation, membership validation after the ID-list
fetch, GET of the delete page with the ID as query parameter, propose
POST, confirmation POST (whose status code the source never checks),
settle delay, and the final still-exists verification. -/
def DeleteCert (env : DeleteEnv) (id : String) : Except String Unit × List NetEvent :=
  if id.length ≤ 0 ∨ id = "0" then (.error errCertDeleteInvalidID, [])
  else
    match env.certIDs1 with
    | .error e => (.error e, [.getCertIDs])
    | .ok existingIDs =>
      if !(existingIDs.contains id) then (.error errCertDeleteInvalidID, [.getCertIDs])
      else
        let tr1 := [NetEvent.getCertIDs, .httpGet urlCertDelete [("idx", id)]]
        match env.page1 with
        | .error e => (.error e, tr1)
        | .ok (status1, bodyBytes) =>
          if status1 ≠ 200 then
            (.error ("printer: get of delete page failed (status code " ++ toString status1 ++ ")"), tr1)
          else
            match env.csrf1 with
            | .error e => (.error e, tr1)
            | .ok csrfToken =>
              match parseDeleteFormFields bodyBytes with
              | .error e => (.error e, tr1)
              | .ok formFields =>
                let tr2 := tr1 ++ [.httpPost urlCertDelete (deleteFormData csrfToken formFields "1" id)]
                match env.post1 with
                | .error e => (.error e, tr2)
                | .ok (status2, bodyBytes2) =>
                  if status2 ≠ 200 then
                    (.error ("printer: get failed (status code " ++ toString status2 ++ ")"), tr2)
                  else
                    match env.csrf2 with
                    | .error e => (.error e, tr2)
                    | .ok csrfToken2 =>
                      match parseDeleteFormFields bodyBytes2 with
                      | .error e => (.error e, tr2)
                      | .ok confirmFormFields =>
                        let tr3 := tr2 ++ [.httpPost urlCertDelete (deleteFormData csrfToken2 confirmFormFields "2" id)]
                        match env.post2 with
                        | .error e => (.error e, tr3)
                        | .ok _ =>
                          let tr4 := tr3 ++ [.sleepSeconds 10, NetEvent.getCertIDs]
                          match env.certIDs2 with
                          | .error e => (.error e, tr4)
                          | .ok existingIDs2 =>
                            if existingIDs2.contains id then
                              (.error errCertDeleteStillExists, tr4)
                            else (.ok (), tr4)

/-- Environment of a SetActiveCert run. -/
structure ActivateEnv where
  page1 : Except String (Nat × Str)
  csrf1 : Except String String
  post1 : Except String (Nat × Str)
  csrf2 : Except String String
  post2 : Except String Nat

/-- Form data of the first settings POST (http_settings.go lines
132-143): selector set to the target ID; each HTTPS checkbox enabled
only when its field name was discovered. -/
def activateFormData1 (csrfToken : String) (f : httpSettingsFormFields)
    (id : String) : List (String × String) :=
  [("pageid", "326"), ("CSRFToken", csrfToken), (f.certSelectField, id)]
  ++ (if f.httpsWebField ≠ "" then [(f.httpsWebField, "1")] else [])
  ++ (if f.httpsIppField ≠ "" then [(f.httpsIppField, "1")] else [])

/-- Form data of the confirmation POST (http_settings.go lines 186-191):
mode 5 activates the other secure protocols. -/
def activateFormData2 (csrfToken : String) : List (String × String) :=
  [("pageid", "326"), ("CSRFToken", csrfToken), ("http_page_mode", "5")]

/-- SetActiveCert (http_settings.go lines 112-223).  Note the source
performs no validation of the target ID whatsoever: whatever string is
given is placed into the discovered certificate-selector field. -/
def SetActiveCert (env : ActivateEnv) (id : String) : Except String Unit × List NetEvent :=
  let tr1 := [NetEvent.httpGet urlHttpCertServerSettings []]
  match env.page1 with
  | .error e => (.error e, tr1)
  | .ok (status1, bodyBytes) =>
    if status1 ≠ 200 then
      (.error ("printer: get of http settings page failed (status code " ++ toString status1 ++ ")"), tr1)
    else
      match env.csrf1 with
      | .error e => (.error e, tr1)
      | .ok csrfToken =>
        match parseHttpSettingsFormFields bodyBytes with
        | .error e => (.error e, tr1)
        | .ok formFields =>
          let tr2 := tr1 ++ [.httpPost urlHttpCertServerSettings (activateFormData1 csrfToken formFields id)]
          match env.post1 with
          | .error e => (.error e, tr2)
          | .ok (status2, _) =>
            if status2 ≠ 200 then
              (.error "printer: failed to post set active cert form", tr2)
            else
              match env.csrf2 with
              | .error e => (.error e, tr2)
              | .ok csrfToken2 =>
                let tr3 := tr2 ++ [.httpPost urlHttpCertServerSettings (activateFormData2 csrfToken2)]
                match env.post2 with
                | .error e => (.error e, tr3)
                | .ok status3 =>
                  if status3 ≠ 200 then
                    (.error "printer: failed to post set active cert form", tr3)
                  else (.ok (), tr3)

/-- Environment of an UploadNewCert run.  p12 is the result of the
external PEM-to-PKCS12 conversion; post1 is the status of the multipart
POST (its body is discarded by the source). -/
structure UploadEnv where
  p12 : Except String Unit
  certIDs1 : Except String (List String)
  page1 : Except String (Nat × Str)
  csrf1 : Except String String
  post1 : Except String Nat
  certIDs2 : Except String (List String)

/-- Text parts of the multipart upload form in submission order (import
file lines 154-204); the file part is attached between the
process-control field and the password field under the discovered file
field name. -/
def uploadFormFieldsData (csrfToken : String) (f : importFormFields) : List (String × String) :=
  [("pageid", "390"), ("CSRFToken", csrfToken)]
  ++ (if f.hiddenField1 ≠ "" then [(f.hiddenField1, "")] else [])
  ++ (if f.hiddenField2 ≠ "" then [(f.hiddenField2, "")] else [])
  ++ [("hidden_certificate_process_control", "1"),
      (f.passwordField, ""), ("hidden_cert_import_password", "")]

/-- One iteration of the ID-Diff Reconciler loop of UploadNewCert
(import file lines 253-268): an entry found in the baseline leaves the
accumulator unchanged, an entry absent from the baseline becomes the
remembered newId and bumps countNew. -/
def newStep (origCertIDs : List String) (acc : String × Nat) (newID : String) : String × Nat :=
  if origCertIDs.contains newID then acc else (newID, acc.2 + 1)

/-- The ID-Diff Reconciler loop of UploadNewCert (import file lines
251-268): folds over the post-snapshot entries, remembering the last
entry absent from the baseline and counting every such entry
(occurrences, not distinct values). -/
def findNewCertId (origCertIDs newCertIDs : List String) : String × Nat :=
  newCertIDs.foldl (newStep origCertIDs) ("", 0)

/-- UploadNewCert (import file lines 93-276).  Returns the deduced new
certificate ID (or the ambiguity error when more than one new entry is
counted) together with the network trace. -/
def UploadNewCert (env : UploadEnv) : Except String String × List NetEvent :=
  match env.p12 with
  | .error e => (.error ("printer: failed to make p12 file (" ++ e ++ ")"), [])
  | .ok _ =>
    match env.certIDs1 with
    | .error e => (.error e, [.getCertIDs])
    | .ok origCertIDs =>
      let tr1 := [NetEvent.getCertIDs, .httpGet urlCertImport []]
      match env.page1 with
      | .error e => (.error e, tr1)
      | .ok (status1, bodyBytes) =>
        if status1 ≠ 200 then
          (.error ("printer: get of certificate import page failed (status code " ++ toString status1 ++ ")"), tr1)
        else
          match env.csrf1 with
          | .error e => (.error e, tr1)
          | .ok csrfToken =>
            match parseImportFormFields bodyBytes with
            | .error e => (.error e, tr1)
            | .ok formFields =>
              let tr2 := tr1 ++ [.httpPostMultipart urlCertImport
                (uploadFormFieldsData csrfToken formFields) formFields.fileField "certkey.p12"]
              match env.post1 with
              | .error e => (.error e, tr2)
              | .ok status2 =>
                if status2 ≠ 200 then
                  (.error ("printer: post of new certificate failed (status code " ++ toString status2 ++ ")"), tr2)
                else
                  let tr3 := tr2 ++ [.sleepSeconds 10, NetEvent.getCertIDs]
                  match env.certIDs2 with
                  | .error e => (.error e, tr3)
                  | .ok newCertIDs =>
                    let r := findNewCertId origCertIDs newCertIDs
                    if r.2 > 1 then (.error errUploadAmbiguous, tr3)
                    else (.ok r.1, tr3)

/-- The predicate counted by the reconciler loop: entry absent from the
baseline snapshot. -/
def isNewEntry (origCertIDs : List String) (x : String) : Bool := !(origCertIDs.contains x)

/-- The field record parseDeleteFormFields produces (it never errors). -/
def deleteFieldsOf (bodyBytes : Str) : deleteFormFields :=
  match deleteHiddenFields bodyBytes with
  | a :: b :: _ => ⟨a, b⟩
  | _ => ⟨"", ""⟩

/-- Network trace of a DeleteCert run that performs all its steps. -/
def deleteRunTrace (tok1 tok2 : String) (b1 b2 : Str) (id : String) : List NetEvent :=
  [NetEvent.getCertIDs, .httpGet urlCertDelete [("idx", id)],
   .httpPost urlCertDelete (deleteFormData tok1 (deleteFieldsOf b1) "1" id),
   .httpPost urlCertDelete (deleteFormData tok2 (deleteFieldsOf b2) "2" id),
   .sleepSeconds 10, NetEvent.getCertIDs]

def bodyC3 : Str := ("<select id=\"B903\" name=\"B903\"><input type=\"checkbox\" id=\"Ba8c\" name=\"Ba8c\" value=\"1\" />HTTPS<input type=\"checkbox\" id=\"Ba9e\" name=\"Ba9e\" value=\"1\" />HTTPS").toList

def fC3 : httpSettingsFormFields := ⟨"B903", "Ba8c", "Ba9e"⟩

def envA0 : ActivateEnv :=
  { page1 := .ok (200, []), csrf1 := .ok "t",
    post1 := .error "unused", csrf2 := .error "unused", post2 := .error "unused" }

def envU0 : UploadEnv :=
  { p12 := .ok (), certIDs1 := .ok [], page1 := .ok (200, []), csrf1 := .ok "t",
    post1 := .error "unused", certIDs2 := .error "unused" }

/-- Import page body holding a file input but no password input. -/
def bodyFileOnly : Str := ("<input type=\"file\" id=\"Ba40\" name=\"Ba40\" />").toList

def envU1 : UploadEnv :=
  { p12 := .ok (), certIDs1 := .ok [], page1 := .ok (200, bodyFileOnly), csrf1 := .ok "t",
    post1 := .error "unused", certIDs2 := .error "unused" }

def envDelete : DeleteEnv :=
  { certIDs1 := .ok ["1", "2", "3"], page1 := .ok (200, []), csrf1 := .ok "t1",
    post1 := .ok (200, []), csrf2 := .ok "t2", post2 := .ok (),
    certIDs2 := .ok ["1", "3"] }

def envC6 : DeleteEnv :=
  { certIDs1 := .ok ["1", "2"], page1 := .error "unused", csrf1 := .error "unused",
    post1 := .error "unused", csrf2 := .error "unused", post2 := .error "unused",
    certIDs2 := .error "unused" }

def bodyC7 : Str := ("<select id=\"B903\" name=\"B903\">").toList

def fC7 : httpSettingsFormFields := ⟨"B903", "", ""⟩

def envC7 : ActivateEnv :=
  { page1 := .ok (200, bodyC7), csrf1 := .ok "tokA",
    post1 := .ok (200, []), csrf2 := .ok "tokB", post2 := .ok 200 }

def bodyImport : Str := ("<input type=\"file\" id=\"Ba40\" name=\"Ba40\" /><input type=\"password\" id=\"Ba41\" name=\"Ba41\" />").toList

def fImport : importFormFields := ⟨"", "", "Ba40", "Ba41"⟩

def envUpload (post : List String) : UploadEnv :=
  { p12 := .ok (), certIDs1 := .ok ["1"], page1 := .ok (200, bodyImport),
    csrf1 := .ok "tok", post1 := .ok 200, certIDs2 := .ok post }

lemma isNewEntry_false (orig : List String) (x : String) (h : orig.contains x = true) :
    isNewEntry orig x = false := by unfold isNewEntry; rw [h]; rfl

lemma isNewEntry_true (orig : List String) (x : String) (h : orig.contains x = false) :
    isNewEntry orig x = true := by unfold isNewEntry; rw [h]; rfl

lemma newStep_old (orig : List String) (acc : String × Nat) (x : String)
    (h : orig.contains x = true) : newStep orig acc x = acc := by
  unfold newStep; rw [h]; simp

lemma newStep_new (orig : List String) (acc : String × Nat) (x : String)
    (h : orig.contains x = false) : newStep orig acc x = (x, acc.2 + 1) := by
  unfold newStep; rw [h]; simp

lemma foldl_newStep_snd (orig : List String) (l : List String) :
    ∀ (s : String) (n : Nat),
      (l.foldl (newStep orig) (s, n)).2 = n + l.countP (isNewEntry orig) := by
  induction l with
  | nil => intro s n; simp
  | cons h t ih =>
    intro s n
    rw [List.foldl_cons, List.countP_cons]
    cases ch : orig.contains h with
    | true => rw [newStep_old orig _ h ch, ih, isNewEntry_false orig h ch]; simp
    | false => rw [newStep_new orig _ h ch, ih, isNewEntry_true orig h ch]; simp; omega

lemma foldl_newStep_fst_zero (orig : List String) (l : List String) :
    ∀ (s : String) (n : Nat),
      l.countP (isNewEntry orig) = 0 →
      (l.foldl (newStep orig) (s, n)).1 = s := by
  induction l with
  | nil => intro s n _; rfl
  | cons h t ih =>
    intro s n hc
    rw [List.countP_cons] at hc
    rw [List.foldl_cons]
    cases ch : orig.contains h with
    | true =>
      rw [isNewEntry_false orig h ch] at hc
      simp only [Bool.false_eq_true, if_false, Nat.add_zero] at hc
      rw [newStep_old orig _ h ch]
      exact ih s n hc
    | false =>
      rw [isNewEntry_true orig h ch] at hc
      simp at hc

lemma foldl_newStep_fst_mem (orig : List String) (l : List String) :
    ∀ (s : String) (n : Nat) (x : String),
      x ∈ l → orig.contains x = false →
      l.countP (isNewEntry orig) = 1 →
      (l.foldl (newStep orig) (s, n)).1 = x := by
  induction l with
  | nil => intro s n x hx _ _; exact absurd hx (List.not_mem_nil x)
  | cons h t ih =>
    intro s n x hx hnew hc
    rw [List.countP_cons] at hc
    rw [List.foldl_cons]
    cases ch : orig.contains h with
    | true =>
      rw [isNewEntry_false orig h ch] at hc
      simp only [Bool.false_eq_true, if_false, Nat.add_zero] at hc
      have hxt : x ∈ t := by
        rcases List.mem_cons.mp hx with hxh | hxt
        · subst hxh; rw [ch] at hnew; cases hnew
        · exact hxt
      rw [newStep_old orig _ h ch]
      exact ih s n x hxt hnew hc
    | false =>
      rw [isNewEntry_true orig h ch] at hc
      simp only [if_pos] at hc
      have hct : t.countP (isNewEntry orig) = 0 := by omega
      have hxh : x = h := by
        rcases List.mem_cons.mp hx with hxh | hxt
        · exact hxh
        · exfalso
          have h0 := List.countP_eq_zero.mp hct x hxt
          rw [isNewEntry_true orig x hnew] at h0
          simp at h0
      subst hxh
      rw [newStep_new orig _ x ch]
      exact foldl_newStep_fst_zero orig t x (n + 1) hct

/-- The countNew counter of the reconciler equals the number of
post-snapshot entries (occurrences) absent from the baseline. -/
lemma findNewCertId_snd (orig post : List String) :
    (findNewCertId orig post).2 = post.countP (isNewEntry orig) := by
  unfold findNewCertId
  rw [foldl_newStep_snd]
  simp

lemma findNewCertId_fst_zero (orig post : List String)
    (h : post.countP (isNewEntry orig) = 0) :
    (findNewCertId orig post).1 = "" := by
  unfold findNewCertId
  exact foldl_newStep_fst_zero orig post "" 0 h

lemma findNewCertId_fst_one (orig post : List String) (x : String)
    (hx : x ∈ post) (hnew : orig.contains x = false)
    (h : post.countP (isNewEntry orig) = 1) :
    (findNewCertId orig post).1 = x := by
  unfold findNewCertId
  exact foldl_newStep_fst_mem orig post "" 0 x hx hnew h

lemma String.eq_empty_of_length_eq_zero (s : String) (h : s.length = 0) : s = "" := by
  cases s with
  | mk data =>
    cases data with
    | nil => rfl
    | cons c cs => simp [String.length] at h

lemma parseDeleteFormFields_eq (bodyBytes : Str) :
    parseDeleteFormFields bodyBytes = .ok (deleteFieldsOf bodyBytes) := by
  unfold parseDeleteFormFields deleteFieldsOf
  cases deleteHiddenFields bodyBytes with
  | nil => rfl
  | cons a t => cases t with
    | nil => rfl
    | cons b t2 => rfl

/-- Characterization of a fully successful UploadNewCert run: p12
conversion ok, both snapshots ok, page fetch 200, token found, import
form fields discovered, POST 200.  The result is decided entirely by the
reconciler loop on the two snapshots. -/
lemma UploadNewCert_run (env : UploadEnv) (orig post : List String) (body : Str)
    (tok : String) (f : importFormFields)
    (h1 : env.p12 = .ok ()) (h2 : env.certIDs1 = .ok orig)
    (h3 : env.page1 = .ok (200, body)) (h4 : env.csrf1 = .ok tok)
    (h5 : parseImportFormFields body = .ok f) (h6 : env.post1 = .ok 200)
    (h7 : env.certIDs2 = .ok post) :
    UploadNewCert env =
      ((if (findNewCertId orig post).2 > 1 then .error errUploadAmbiguous
        else .ok (findNewCertId orig post).1),
       [NetEvent.getCertIDs, .httpGet urlCertImport [],
        .httpPostMultipart urlCertImport (uploadFormFieldsData tok f) f.fileField "certkey.p12",
        .sleepSeconds 10, NetEvent.getCertIDs]) := by
  unfold UploadNewCert
  simp only [h1, h2, h3, h4, h5, h6, h7]
  simp
  split <;> rfl

/-- A fully successful DeleteCert run whose final snapshot still contains
the target ID returns the dedicated still-exists verification error. -/
lemma DeleteCert_run_present (env : DeleteEnv) (id : String) (ids1 ids2 : List String)
    (b1 b2 : Str) (tok1 tok2 : String)
    (hne : ¬(id.length ≤ 0 ∨ id = "0"))
    (h1 : env.certIDs1 = .ok ids1) (hmem : ids1.contains id = true)
    (h2 : env.page1 = .ok (200, b1)) (h3 : env.csrf1 = .ok tok1)
    (h4 : env.post1 = .ok (200, b2)) (h5 : env.csrf2 = .ok tok2)
    (h6 : env.post2 = .ok ())
    (h7 : env.certIDs2 = .ok ids2) (hp : ids2.contains id = true) :
    DeleteCert env id = (.error errCertDeleteStillExists, deleteRunTrace tok1 tok2 b1 b2 id) := by
  unfold DeleteCert deleteRunTrace
  rw [if_neg hne]
  simp only [h1, h2, h3, h4, h5, h6, h7, hmem, parseDeleteFormFields_eq]
  simp [hp]
  exact List.elem_iff.mp hp

/-- A fully successful DeleteCert run whose final snapshot no longer
contains the target ID returns success. -/
lemma DeleteCert_run_absent (env : DeleteEnv) (id : String) (ids1 ids2 : List String)
    (b1 b2 : Str) (tok1 tok2 : String)
    (hne : ¬(id.length ≤ 0 ∨ id = "0"))
    (h1 : env.certIDs1 = .ok ids1) (hmem : ids1.contains id = true)
    (h2 : env.page1 = .ok (200, b1)) (h3 : env.csrf1 = .ok tok1)
    (h4 : env.post1 = .ok (200, b2)) (h5 : env.csrf2 = .ok tok2)
    (h6 : env.post2 = .ok ())
    (h7 : env.certIDs2 = .ok ids2) (hp : ids2.contains id = false) :
    DeleteCert env id = (.ok (), deleteRunTrace tok1 tok2 b1 b2 id) := by
  unfold DeleteCert deleteRunTrace
  rw [if_neg hne]
  simp only [h1, h2, h3, h4, h5, h6, h7, hmem, parseDeleteFormFields_eq]
  simp [hp]
  intro hmm
  have hcontra : ids2.contains id = true := List.elem_iff.mpr hmm
  rw [hcontra] at hp
  cases hp

/-- C4: DeleteCert called with the empty string or the sentinel ID 0 returns the validation error errCertDeleteInvalidID immediately; the returned network trace is empty, so no HTTP request or ID-list fetch is performed. -/
theorem deleteCert_sentinel_rejection_no_http (env : DeleteEnv) :
    DeleteCert env "" = (.error errCertDeleteInvalidID, []) ∧
    DeleteCert env "0" = (.error errCertDeleteInvalidID, []) := by
  refine ⟨?_, ?_⟩
  · unfold DeleteCert; rw [if_pos (Or.inl (by decide))]
  · unfold DeleteCert; rw [if_pos (Or.inr rfl)]

/-- C8: each Field Discoverer is a pure function of the input page bytes - for every fixed body, two invocations return identical FormFieldSet results and identical error results. In this embedding the three parsers are total functions of the body alone, so determinism holds by construction, matching the Go code whose only inputs are the body bytes and stateless regular expressions. -/
theorem field_discoverers_deterministic (b1 b2 : Str) (h : b1 = b2) :
    parseHttpSettingsFormFields b1 = parseHttpSettingsFormFields b2 ∧
    parseDeleteFormFields b1 = parseDeleteFormFields b2 ∧
    parseImportFormFields b1 = parseImportFormFields b2 := by
  subst h; exact ⟨rfl, rfl, rfl⟩

/-- Witness for C8 at a concrete settings-page body. -/
theorem field_discoverers_deterministic_witness :
    parseHttpSettingsFormFields bodyC3 = parseHttpSettingsFormFields bodyC3 ∧
    parseDeleteFormFields bodyC3 = parseDeleteFormFields bodyC3 ∧
    parseImportFormFields bodyC3 = parseImportFormFields bodyC3 :=
  field_discoverers_deterministic bodyC3 bodyC3 rfl

/-- C3: ordinal mapping of the HTTPS checkboxes - whenever the settings-page body yields exactly two structurally-matching HTTPS checkbox names X then Y in document order, successful discovery assigns X to the web role and Y to the ipp role. The statement is universal over bodies, so instantiating it at a body with the two elements swapped swaps the mapping. -/
theorem https_checkbox_ordinal_mapping (body : Str) (x y : String)
    (f : httpSettingsFormFields)
    (hnames : httpsNamesOf body = [x, y])
    (hok : parseHttpSettingsFormFields body = .ok f) :
    f.httpsWebField = x ∧ f.httpsIppField = y := by
  unfold parseHttpSettingsFormFields at hok
  rw [hnames] at hok
  by_cases hsel : certSelectOf body = ""
  · rw [if_pos hsel] at hok; cases hok
  · rw [if_neg hsel] at hok
    cases hok
    exact ⟨rfl, rfl⟩

set_option maxRecDepth 40000 in
/-- Witness for C3: a concrete body with checkboxes Ba8c then Ba9e maps web to Ba8c and ipp to Ba9e. -/
theorem https_checkbox_ordinal_mapping_witness :
    fC3.httpsWebField = "Ba8c" ∧ fC3.httpsIppField = "Ba9e" :=
  https_checkbox_ordinal_mapping bodyC3 "Ba8c" "Ba9e" fC3 (by rfl) (by rfl)

lemma certSelectOf_none (bs : Str) (h : findSub selectRegex bs = none) :
    certSelectOf bs = "" := by unfold certSelectOf; rw [h]

lemma parseHttpSettings_err (bs : Str) (h : findSub selectRegex bs = none) :
    parseHttpSettingsFormFields bs = .error errNoCertSelectField := by
  unfold parseHttpSettingsFormFields
  rw [certSelectOf_none bs h]
  simp

lemma fileFieldOf_none (bi : Str) (h : findSub fileRegex bi = none) :
    fileFieldOf bi = "" := by unfold fileFieldOf; rw [h]

lemma passwordFieldOf_none (bi : Str) (h : findSub passwordRegex bi = none) :
    passwordFieldOf bi = "" := by unfold passwordFieldOf; rw [h]

lemma parseImport_err_file (bi : Str) (h : findSub fileRegex bi = none) :
    parseImportFormFields bi = .error errNoFileField := by
  unfold parseImportFormFields
  rw [fileFieldOf_none bi h]
  simp

lemma parseImport_err_password (bi : Str) (hpw : findSub passwordRegex bi = none)
    (hf : fileFieldOf bi ≠ "") :
    parseImportFormFields bi = .error errNoPasswordField := by
  unfold parseImportFormFields
  rw [if_neg hf, passwordFieldOf_none bi hpw]
  simp

/-- A discovery error on the import page aborts UploadNewCert before the
multipart POST: the trace holds only the ID-list fetch and the page GET. -/
lemma UploadNewCert_discovery_err (envU : UploadEnv) (bi : Str) (orig : List String)
    (tok e : String) (h1 : envU.p12 = .ok ()) (h2 : envU.certIDs1 = .ok orig)
    (h3 : envU.page1 = .ok (200, bi)) (h4 : envU.csrf1 = .ok tok)
    (hperr : parseImportFormFields bi = .error e) :
    UploadNewCert envU = (.error e, [NetEvent.getCertIDs, .httpGet urlCertImport []]) := by
  unfold UploadNewCert
  simp only [h1, h2, h3, h4, hperr]
  simp

/-- C2: required-role failure - a settings page in which the certificate-selector pattern finds no select element makes parseHttpSettingsFormFields return a discovery error; an import page without a file-type input or without a password-type input makes parseImportFormFields return a discovery error, never a partially populated record; and the calling orchestrators abort with that error before submitting any form - their traces contain only the page fetches, no POST. The abort is shown for all three missing-role cases: missing selector (SetActiveCert, conjunct 4), missing file input (UploadNewCert, conjunct 5) and missing password input, with or without a file input (UploadNewCert, conjunct 6). -/
theorem discovery_required_field_failure_aborts
    (bs bi : Str) (envA : ActivateEnv) (envU : UploadEnv) :
    (findSub selectRegex bs = none →
      parseHttpSettingsFormFields bs = .error errNoCertSelectField) ∧
    (findSub fileRegex bi = none →
      parseImportFormFields bi = .error errNoFileField) ∧
    (findSub passwordRegex bi = none →
      (parseImportFormFields bi = .error errNoFileField ∨
       parseImportFormFields bi = .error errNoPasswordField)) ∧
    (∀ id tok, envA.page1 = .ok (200, bs) → envA.csrf1 = .ok tok →
      findSub selectRegex bs = none →
      SetActiveCert envA id = (.error errNoCertSelectField,
        [NetEvent.httpGet urlHttpCertServerSettings []])) ∧
    (∀ orig tok, envU.p12 = .ok () → envU.certIDs1 = .ok orig →
      envU.page1 = .ok (200, bi) → envU.csrf1 = .ok tok →
      findSub fileRegex bi = none →
      UploadNewCert envU = (.error errNoFileField,
        [NetEvent.getCertIDs, .httpGet urlCertImport []])) ∧
    (∀ orig tok, envU.p12 = .ok () → envU.certIDs1 = .ok orig →
      envU.page1 = .ok (200, bi) → envU.csrf1 = .ok tok →
      findSub passwordRegex bi = none →
      (UploadNewCert envU).2 = [NetEvent.getCertIDs, .httpGet urlCertImport []] ∧
      ((UploadNewCert envU).1 = .error errNoFileField ∨
       (UploadNewCert envU).1 = .error errNoPasswordField)) := by
  refine ⟨fun h => parseHttpSettings_err bs h, fun h => parseImport_err_file bi h, ?_, ?_, ?_, ?_⟩
  · intro h
    unfold parseImportFormFields
    rw [passwordFieldOf_none bi h]
    by_cases hf : fileFieldOf bi = ""
    · rw [if_pos hf]; exact Or.inl rfl
    · rw [if_neg hf]; exact Or.inr (by simp)
  · intro id tok hp ht hsel
    unfold SetActiveCert
    simp only [hp, ht, parseHttpSettings_err bs hsel]
    simp
  · intro orig tok h1 h2 h3 h4 hfile
    exact UploadNewCert_discovery_err envU bi orig tok errNoFileField h1 h2 h3 h4
      (parseImport_err_file bi hfile)
  · intro orig tok h1 h2 h3 h4 hpw
    by_cases hf : fileFieldOf bi = ""
    · have hperr : parseImportFormFields bi = .error errNoFileField := by
        unfold parseImportFormFields
        rw [if_pos hf]
      have hrun := UploadNewCert_discovery_err envU bi orig tok errNoFileField h1 h2 h3 h4 hperr
      exact ⟨by rw [hrun], Or.inl (by rw [hrun])⟩
    · have hrun := UploadNewCert_discovery_err envU bi orig tok errNoPasswordField h1 h2 h3 h4
        (parseImport_err_password bi hpw hf)
      exact ⟨by rw [hrun], Or.inr (by rw [hrun])⟩

set_option maxRecDepth 40000 in
/-- Witness for C2 at the empty page body (no select, no file, no
password) and at a body holding a file input but no password input,
with concrete environments. -/
theorem discovery_required_field_failure_aborts_witness :
    parseHttpSettingsFormFields [] = .error errNoCertSelectField ∧
    parseImportFormFields [] = .error errNoFileField ∧
    (parseImportFormFields [] = .error errNoFileField ∨
     parseImportFormFields [] = .error errNoPasswordField) ∧
    SetActiveCert envA0 "1" = (.error errNoCertSelectField,
      [NetEvent.httpGet urlHttpCertServerSettings []]) ∧
    UploadNewCert envU0 = (.error errNoFileField,
      [NetEvent.getCertIDs, .httpGet urlCertImport []]) ∧
    ((UploadNewCert envU1).2 = [NetEvent.getCertIDs, .httpGet urlCertImport []] ∧
     ((UploadNewCert envU1).1 = .error errNoFileField ∨
      (UploadNewCert envU1).1 = .error errNoPasswordField)) := by
  have h := discovery_required_field_failure_aborts [] [] envA0 envU0
  have h6 := (discovery_required_field_failure_aborts [] bodyFileOnly envA0 envU1).2.2.2.2.2
    [] "t" rfl rfl rfl rfl (by rfl)
  exact ⟨h.1 rfl, h.2.1 rfl, h.2.2.1 rfl, h.2.2.2.1 "1" "t" rfl rfl rfl,
         h.2.2.2.2.1 [] "t" rfl rfl rfl rfl rfl, h6⟩

/-- C5: after the two form submissions and the settle interval, if the target ID is still present in the re-fetched certificate-ID list DeleteCert returns the dedicated still-exists verification error; if the ID is absent it returns success. The third conjunct shows the verification error is distinct from both status-code transport error strings of DeleteCert, for every status code. -/
theorem deleteCert_postcondition_verification (env : DeleteEnv) (id : String)
    (ids1 ids2 : List String) (b1 b2 : Str) (tok1 tok2 : String)
    (hid0 : id ≠ "") (hid1 : id ≠ "0")
    (h1 : env.certIDs1 = .ok ids1) (hmem : ids1.contains id = true)
    (h2 : env.page1 = .ok (200, b1)) (h3 : env.csrf1 = .ok tok1)
    (h4 : env.post1 = .ok (200, b2)) (h5 : env.csrf2 = .ok tok2)
    (h6 : env.post2 = .ok ()) (h7 : env.certIDs2 = .ok ids2) :
    (ids2.contains id = true →
      (DeleteCert env id).1 = .error errCertDeleteStillExists) ∧
    (ids2.contains id = false → (DeleteCert env id).1 = .ok ()) ∧
    (∀ rest : String,
      errCertDeleteStillExists ≠ "printer: get of delete page failed (status code " ++ rest ∧
      errCertDeleteStillExists ≠ "printer: get failed (status code " ++ rest) := by
  have hne : ¬(id.length ≤ 0 ∨ id = "0") := by
    intro hor
    rcases hor with hl | h0
    · exact hid0 (String.eq_empty_of_length_eq_zero id (Nat.le_zero.mp hl))
    · exact hid1 h0
  refine ⟨?_, ?_, ?_⟩
  · intro hp
    rw [DeleteCert_run_present env id ids1 ids2 b1 b2 tok1 tok2 hne h1 hmem h2 h3 h4 h5 h6 h7 hp]
  · intro hp
    rw [DeleteCert_run_absent env id ids1 ids2 b1 b2 tok1 tok2 hne h1 hmem h2 h3 h4 h5 h6 h7 hp]
  · intro rest
    constructor <;>
      (intro hstr
       have hd := congrArg (fun t => t.data.get? 9) hstr
       simp [String.data_append, errCertDeleteStillExists] at hd)

/-- Witness for C5: device reports 1,2,3; caller deletes 2; after settle the device reports 1,3; the orchestrator returns success. -/
theorem deleteCert_postcondition_verification_witness :
    (DeleteCert envDelete "2").1 = .ok () :=
  (deleteCert_postcondition_verification envDelete "2" ["1", "2", "3"] ["1", "3"]
    [] [] "t1" "t2" (by decide) (by decide) rfl (by decide) rfl rfl rfl rfl rfl rfl).2.1
    (by decide)

/-- C6 counterexample: the not-in-list validation of DeleteCert is raised only after the ID-list fetch, which is a network round trip - on a device reporting IDs 1 and 2, DeleteCert of 5 returns the validation error with a non-empty network trace, refuting the claim that every validation error precedes all network I/O. -/
theorem deleteCert_membership_validation_after_io :
    (DeleteCert envC6 "5").1 = .error errCertDeleteInvalidID ∧
    (DeleteCert envC6 "5").2 = [NetEvent.getCertIDs] ∧
    (DeleteCert envC6 "5").2 ≠ ([] : List NetEvent) := by
  refine ⟨rfl, rfl, by decide⟩

/-- C6 amended: the empty-ID and sentinel validations of DeleteCert are raised before any network I/O (empty trace); the not-in-list validation is raised after exactly one ID-list fetch and before any delete-page request or form submission (the trace is exactly one getCertIDs event). -/
theorem deleteCert_validation_io_boundaries (env : DeleteEnv) (id : String) (ids : List String) :
    ((id = "" ∨ id = "0") → DeleteCert env id = (.error errCertDeleteInvalidID, [])) ∧
    (env.certIDs1 = .ok ids → id ≠ "" → id ≠ "0" → ids.contains id = false →
      DeleteCert env id = (.error errCertDeleteInvalidID, [NetEvent.getCertIDs])) := by
  constructor
  · intro hor
    unfold DeleteCert
    rcases hor with h0 | h0
    · subst h0; rw [if_pos (Or.inl (by decide))]
    · subst h0; rw [if_pos (Or.inr rfl)]
  · intro h1 hid0 hid1 hmem
    have hne : ¬(id.length ≤ 0 ∨ id = "0") := by
      intro hor
      rcases hor with hl | h0
      · exact hid0 (String.eq_empty_of_length_eq_zero id (Nat.le_zero.mp hl))
      · exact hid1 h0
    unfold DeleteCert
    rw [if_neg hne]
    simp only [h1, hmem]
    simp

/-- Witness for the amended C6 at concrete inputs. -/
theorem deleteCert_validation_io_boundaries_witness :
    DeleteCert envC6 "" = (.error errCertDeleteInvalidID, []) ∧
    DeleteCert envC6 "7" = (.error errCertDeleteInvalidID, [NetEvent.getCertIDs]) :=
  ⟨(deleteCert_validation_io_boundaries envC6 "" []).1 (Or.inl rfl),
   (deleteCert_validation_io_boundaries envC6 "7" ["1", "2"]).2 rfl (by decide) (by decide) (by decide)⟩

lemma SetActiveCert_posts_selector (envA : ActivateEnv) (id : String) (b : Str)
    (tok : String) (f : httpSettingsFormFields)
    (hp : envA.page1 = .ok (200, b)) (ht : envA.csrf1 = .ok tok)
    (hf : parseHttpSettingsFormFields b = .ok f) :
    (SetActiveCert envA id).2.take 2 =
      [NetEvent.httpGet urlHttpCertServerSettings [],
       .httpPost urlHttpCertServerSettings (activateFormData1 tok f id)] := by
  unfold SetActiveCert
  simp only [hp, ht, hf]
  cases h4 : envA.post1 with
  | error e => simp
  | ok p =>
    obtain ⟨status2, body2⟩ := p
    by_cases hs : status2 = 200
    · subst hs
      simp only [ne_eq, not_true_eq_false, reduceIte]
      cases h5 : envA.csrf2 with
      | error e => simp
      | ok tok2 =>
        cases h6 : envA.post2 with
        | error e => simp
        | ok st3 => by_cases hs3 : st3 = 200 <;> simp [hs3]
    · simp [hs]

set_option maxRecDepth 40000 in
/-- C7 counterexample: SetActiveCert does not reject the sentinel ID 0 - with a well-formed settings page it succeeds and its trace contains a POST whose form data sets the certificate-selector field to 0. -/
theorem setActiveCert_accepts_sentinel :
    (SetActiveCert envC7 "0").1 = .ok () ∧
    NetEvent.httpPost urlHttpCertServerSettings
      [("pageid", "326"), ("CSRFToken", "tokA"), ("B903", "0")] ∈ (SetActiveCert envC7 "0").2 ∧
    ("B903", "0") ∈ [("pageid", "326"), ("CSRFToken", "tokA"), ("B903", "0")] := by
  refine ⟨rfl, by decide, by decide⟩

/-- C7 amended: DeleteCert rejects the sentinel ID 0 without any network operation, but SetActiveCert performs no sentinel validation - whenever page fetch, token extraction and discovery succeed, it submits the settings form with the selector field set to the given ID, including 0. -/
theorem sentinel_delete_rejected_activate_submitted (env : DeleteEnv)
    (envA : ActivateEnv) (b : Str) (tok : String) (f : httpSettingsFormFields) :
    DeleteCert env "0" = (.error errCertDeleteInvalidID, []) ∧
    (envA.page1 = .ok (200, b) → envA.csrf1 = .ok tok →
      parseHttpSettingsFormFields b = .ok f →
      (SetActiveCert envA "0").2.take 2 =
        [NetEvent.httpGet urlHttpCertServerSettings [],
         .httpPost urlHttpCertServerSettings (activateFormData1 tok f "0")] ∧
      (f.certSelectField, "0") ∈ activateFormData1 tok f "0") := by
  constructor
  · unfold DeleteCert; rw [if_pos (Or.inr rfl)]
  · intro hp ht hf
    refine ⟨SetActiveCert_posts_selector envA "0" b tok f hp ht hf, ?_⟩
    unfold activateFormData1
    simp

set_option maxRecDepth 40000 in
/-- Witness for the amended C7 at concrete environments. -/
theorem sentinel_delete_rejected_activate_submitted_witness :
    DeleteCert envC6 "0" = (.error errCertDeleteInvalidID, []) ∧
    ((SetActiveCert envC7 "0").2.take 2 =
      [NetEvent.httpGet urlHttpCertServerSettings [],
       .httpPost urlHttpCertServerSettings (activateFormData1 "tokA" fC7 "0")] ∧
     (fC7.certSelectField, "0") ∈ activateFormData1 "tokA" fC7 "0") := by
  have h := sentinel_delete_rejected_activate_submitted envC6 envC7 bodyC7 "tokA" fC7
  exact ⟨h.1, h.2 rfl rfl (by rfl)⟩

/-- C9: hidden-companion scarcity is not an error - when fewer than two unknown hidden fields are found (zero or exactly one), neither companion role is assigned: both hiddenField1 and hiddenField2 stay empty (a single found field is not assigned to the first role). The delete discoverer still returns success unconditionally; the import discoverer returns success with empty companions whenever its required file and password roles are present (their absence is a separate failure, the subject of C2); and the form data submitted by the orchestrators contains no companion fields. -/
theorem hidden_companion_scarcity_not_error (bd bi : Str) (f : importFormFields)
    (hd : (deleteHiddenFields bd).length < 2)
    (hi : (importHiddenFields bi).length < 2) :
    parseDeleteFormFields bd = .ok ⟨"", ""⟩ ∧
    (parseImportFormFields bi = .ok f → f.hiddenField1 = "" ∧ f.hiddenField2 = "") ∧
    (∀ tok id, deleteFormData tok ⟨"", ""⟩ "1" id =
      [("pageid", "383"), ("CSRFToken", tok),
       ("hidden_certificate_process_control", "1"), ("hidden_certificate_idx", id)]) ∧
    (∀ tok g, g.hiddenField1 = "" → g.hiddenField2 = "" →
      uploadFormFieldsData tok g =
      [("pageid", "390"), ("CSRFToken", tok),
       ("hidden_certificate_process_control", "1"),
       (g.passwordField, ""), ("hidden_cert_import_password", "")]) := by
  refine ⟨?_, ?_, ?_, ?_⟩
  · rw [parseDeleteFormFields_eq]
    unfold deleteFieldsOf
    cases hl : deleteHiddenFields bd with
    | nil => rfl
    | cons a t =>
      cases t with
      | nil => rfl
      | cons b2 t2 => rw [hl] at hd; simp at hd; omega
  · intro hok
    unfold parseImportFormFields at hok
    by_cases hf1 : fileFieldOf bi = ""
    · rw [if_pos hf1] at hok; cases hok
    · rw [if_neg hf1] at hok
      by_cases hf2 : passwordFieldOf bi = ""
      · rw [if_pos hf2] at hok; cases hok
      · rw [if_neg hf2] at hok
        cases hok
        have hpair : importHiddenPair bi = ("", "") := by
          unfold importHiddenPair
          cases hl : importHiddenFields bi with
          | nil => rfl
          | cons a t =>
            cases t with
            | nil => rfl
            | cons b2 t2 => rw [hl] at hi; simp at hi; omega
        constructor
        · show (importHiddenPair bi).1 = ""
          rw [hpair]
        · show (importHiddenPair bi).2 = ""
          rw [hpair]
  · intro tok id; simp [deleteFormData]
  · intro tok g hg1 hg2; simp [uploadFormFieldsData, hg1, hg2]

set_option maxRecDepth 40000 in
lemma parseImport_bodyImport : parseImportFormFields bodyImport = .ok fImport := by rfl

set_option maxRecDepth 40000 in
/-- Witness for C9 at concrete bodies with zero unknown hidden fields. -/
theorem hidden_companion_scarcity_not_error_witness :
    parseDeleteFormFields [] = .ok ⟨"", ""⟩ ∧
    (fImport.hiddenField1 = "" ∧ fImport.hiddenField2 = "") ∧
    deleteFormData "t" ⟨"", ""⟩ "1" "5" =
      [("pageid", "383"), ("CSRFToken", "t"),
       ("hidden_certificate_process_control", "1"), ("hidden_certificate_idx", "5")] ∧
    uploadFormFieldsData "t" fImport =
      [("pageid", "390"), ("CSRFToken", "t"),
       ("hidden_certificate_process_control", "1"),
       ("Ba41", ""), ("hidden_cert_import_password", "")] := by
  have h := hidden_companion_scarcity_not_error [] bodyImport fImport (by decide) (by decide)
  refine ⟨h.1, h.2.1 parseImport_bodyImport, h.2.2.1 "t" "5", ?_⟩
  have h4 := h.2.2.2 "t" fImport rfl rfl
  rw [h4]
  rfl

set_option maxRecDepth 40000 in
/-- C1 counterexample: with baseline 1 and post-snapshot 1,4,4 exactly one distinct ID (4) is present in the post-snapshot but absent from the baseline, yet UploadNewCert returns the ambiguity error instead of that ID, because the reconciler counts list entries rather than distinct IDs. -/
theorem upload_single_distinct_duplicated_id_errors :
    (envUpload ["1", "4", "4"]).certIDs1 = .ok ["1"] ∧
    (envUpload ["1", "4", "4"]).certIDs2 = .ok ["1", "4", "4"] ∧
    (["1", "4", "4"].filter (fun x => !(["1"].contains x))).dedup = ["4"] ∧
    (UploadNewCert (envUpload ["1", "4", "4"])).1 = .error errUploadAmbiguous := by
  refine ⟨rfl, rfl, by decide, ?_⟩
  rfl

/-- C1 amended: counting post-snapshot entries rather than distinct IDs - after the upload POST and the settle delay, if zero entries of the post-snapshot are absent from the baseline UploadNewCert returns the empty ID with no error; if exactly one entry is new it returns that entry with no error; if more than one entry is new (even two occurrences of one distinct ID) it returns the ambiguity error rather than any ID. -/
theorem uploadNewCert_entrywise_diff_semantics (env : UploadEnv)
    (orig post : List String) (body : Str) (tok : String) (f : importFormFields)
    (h1 : env.p12 = .ok ()) (h2 : env.certIDs1 = .ok orig)
    (h3 : env.page1 = .ok (200, body)) (h4 : env.csrf1 = .ok tok)
    (h5 : parseImportFormFields body = .ok f) (h6 : env.post1 = .ok 200)
    (h7 : env.certIDs2 = .ok post) :
    (post.countP (isNewEntry orig) = 0 → (UploadNewCert env).1 = .ok "") ∧
    (∀ x, post.countP (isNewEntry orig) = 1 → x ∈ post → orig.contains x = false →
      (UploadNewCert env).1 = .ok x) ∧
    (1 < post.countP (isNewEntry orig) →
      (UploadNewCert env).1 = .error errUploadAmbiguous) := by
  have hrun := UploadNewCert_run env orig post body tok f h1 h2 h3 h4 h5 h6 h7
  have hfst : (UploadNewCert env).1 =
      (if (findNewCertId orig post).2 > 1 then Except.error errUploadAmbiguous
       else Except.ok (findNewCertId orig post).1) := by rw [hrun]
  refine ⟨?_, ?_, ?_⟩
  · intro hc
    rw [hfst, if_neg (by rw [findNewCertId_snd, hc]; omega),
        findNewCertId_fst_zero orig post hc]
  · intro x hc hx hnew
    rw [hfst, if_neg (by rw [findNewCertId_snd, hc]; omega),
        findNewCertId_fst_one orig post x hx hnew hc]
  · intro hc
    rw [hfst, if_pos (by rw [findNewCertId_snd]; omega)]

set_option maxRecDepth 40000 in
/-- Witness for the amended C1: baseline 1, post-snapshot 1,4; the orchestrator returns 4. -/
theorem uploadNewCert_entrywise_diff_semantics_witness :
    (UploadNewCert (envUpload ["1", "4"])).1 = .ok "4" :=
  (uploadNewCert_entrywise_diff_semantics (envUpload ["1", "4"]) ["1"] ["1", "4"]
    bodyImport "tok" fImport rfl rfl rfl rfl parseImport_bodyImport rfl rfl).2.1
    "4" (by decide) (by decide) (by decide)

/-- C10: the reconciliation of UploadNewCert counts occurrences in the post-snapshot list rather than distinct IDs - for every post-snapshot containing the same baseline-absent ID at two list positions, the count of new entries exceeds one and UploadNewCert returns the ambiguity error instead of that ID. -/
theorem uploadNewCert_counts_occurrences (env : UploadEnv)
    (orig a b c : List String) (id : String) (body : Str) (tok : String)
    (f : importFormFields)
    (h1 : env.p12 = .ok ()) (h2 : env.certIDs1 = .ok orig)
    (h3 : env.page1 = .ok (200, body)) (h4 : env.csrf1 = .ok tok)
    (h5 : parseImportFormFields body = .ok f) (h6 : env.post1 = .ok 200)
    (h7 : env.certIDs2 = .ok (a ++ id :: b ++ id :: c))
    (hnew : orig.contains id = false) :
    (UploadNewCert env).1 = .error errUploadAmbiguous := by
  have hrun := UploadNewCert_run env orig (a ++ id :: b ++ id :: c) body tok f h1 h2 h3 h4 h5 h6 h7
  have hfst : (UploadNewCert env).1 =
      (if (findNewCertId orig (a ++ id :: b ++ id :: c)).2 > 1 then Except.error errUploadAmbiguous
       else Except.ok (findNewCertId orig (a ++ id :: b ++ id :: c)).1) := by rw [hrun]
  have hcnt : 1 < (findNewCertId orig (a ++ id :: b ++ id :: c)).2 := by
    rw [findNewCertId_snd, List.countP_append, List.countP_cons, List.countP_append,
        List.countP_cons, isNewEntry_true orig id hnew]
    simp
    omega
  rw [hfst, if_pos hcnt]

set_option maxRecDepth 40000 in
/-- Witness for C10: baseline 1, post-snapshot 1,4,4; the orchestrator returns the ambiguity error. -/
theorem uploadNewCert_counts_occurrences_witness :
    (UploadNewCert (envUpload ["1", "4", "4"])).1 = .error errUploadAmbiguous :=
  uploadNewCert_counts_occurrences (envUpload ["1", "4", "4"]) ["1"] ["1"] [] [] "4"
    bodyImport "tok" fImport rfl rfl rfl rfl parseImport_bodyImport rfl rfl (by decide)
